import Mathlib

/-!
Verification of the srsRAN CU-UP bearer-context lifecycle manager
(`lib/cu_up/pdu_session_manager_impl.cpp`), the E1AP CU-UP message handlers
(`lib/e1ap/cu_up/e1ap_cu_up_impl.cpp`) and the SDR radio-unit YAML
configuration writer
(`apps/units/flexible_du/split_8/helpers/ru_sdr_config_yaml_writer.cpp`),
as a shallow embedding: the C++ state (std::map members, the GTP-U
demultiplexer, the F1-U gateway, the logger) becomes an explicit state
record threaded through Lean functions, machine integers become `Nat` with
explicit `% 2^32` where the C++ computes in `uint32_t`, and protocol
entities created through factories (PDCP, SDAP, GTP-U, F1-U bearers) are
represented by generation numbers drawn from a freshness counter, so that
"the entity was replaced by a newly created one" is expressible.
-/

namespace SrsranCuUp

/-! ### Association-list maps

The C++ code keeps its collections in `std::map` and `slotted_array`-like
containers.  We model them as association lists `List (Nat × α)` with the
exact operations the source uses: `find`, `emplace` (insert only if the key
is absent, as `std::map::emplace`), `operator[]` assignment
(insert-or-assign), in-place mutation through a reference obtained by key,
and `erase`. -/

/-- Lookup by key, as `std::map::find`. -/
def mfind {α : Type} : List (Nat × α) → Nat → Option α
  | [], _ => none
  | (k, v) :: rest, key => if k = key then some v else mfind rest key

/-- Insertion that keeps a pre-existing entry, as `std::map::emplace`:
if the key is already present the map is unchanged (the freshly constructed
value is discarded). -/
def memplace {α : Type} (m : List (Nat × α)) (key : Nat) (v : α) : List (Nat × α) :=
  if (mfind m key).isSome then m else m ++ [(key, v)]

/-- Insert-or-assign, as `map[key] = value`. -/
def massign {α : Type} : List (Nat × α) → Nat → α → List (Nat × α)
  | [], key, v => [(key, v)]
  | (k, w) :: rest, key, v =>
    if k = key then (k, v) :: rest else (k, w) :: massign rest key v

/-- Mutation of the mapped value through a reference obtained by key
(`map.at(key)` followed by member writes); a missing key leaves the map
unchanged. -/
def mupdate {α : Type} : List (Nat × α) → Nat → (α → α) → List (Nat × α)
  | [], _, _ => []
  | (k, w) :: rest, key, f =>
    if k = key then (k, f w) :: rest else (k, w) :: mupdate rest key f

/-- Erase by key, as `std::map::erase`. -/
def merase {α : Type} : List (Nat × α) → Nat → List (Nat × α)
  | [], _ => []
  | (k, w) :: rest, key => if k = key then rest else (k, w) :: merase rest key

/-! ### Local TEID allocation

`pdu_session_manager_impl::allocate_local_teid` and
`allocate_local_f1u_teid` compute in `uint32_t`; `u32` is the corresponding
truncation on `Nat`. -/

/-- Truncation to 32 bits, the width of `uint32_t local_teid`. -/
def u32 (n : Nat) : Nat := n % 2 ^ 32

/-- Embedding of `pdu_session_manager_impl::allocate_local_teid`:
`uint32_t local_teid = ue_index; local_teid <<= 8U;
local_teid |= pdu_session_id_to_uint(pdu_session_id);`. -/
def allocate_local_teid (ue_index psi : Nat) : Nat :=
  u32 (u32 ue_index * 2 ^ 8) ||| u32 psi

/-- Embedding of `pdu_session_manager_impl::allocate_local_f1u_teid`:
the UE index is shifted left 8 bits, ORed with the PDU session id, shifted
left 8 bits again and ORed with the DRB id, all in `uint32_t`. -/
def allocate_local_f1u_teid (ue_index psi drb : Nat) : Nat :=
  u32 ((u32 (u32 ue_index * 2 ^ 8) ||| u32 psi) * 2 ^ 8) ||| u32 drb

/-- Bitwise OR with a value below `2 ^ k` adds it into the zero low bits of
a multiple of `2 ^ k`. -/
theorem mul_two_pow_lor_eq_add (k : Nat) :
    ∀ a b : Nat, b < 2 ^ k → (a * 2 ^ k) ||| b = a * 2 ^ k + b := by
  induction k with
  | zero =>
    intro a b hb
    interval_cases b
    simp
  | succ k ih =>
    intro a b hb
    have hdecomp : b = Nat.bit b.bodd b.div2 := (Nat.bit_decomp b).symm
    have ha : a * 2 ^ (k + 1) = Nat.bit false (a * 2 ^ k) := by
      simp [Nat.bit]
      ring
    rw [hdecomp, ha, Nat.lor_bit]
    have hdiv : b.div2 < 2 ^ k := by
      rw [hdecomp] at hb
      exact Nat.bit_lt_two_pow_succ_iff.mp hb
    rw [ih a b.div2 hdiv]
    cases hbodd : b.bodd <;> simp [Nat.bit] <;> ring

/-- Closed form of the N3 local TEID for in-range inputs. -/
theorem allocate_local_teid_eq (ue psi : Nat) (hue : ue < 2 ^ 8) (hpsi : psi < 2 ^ 8) :
    allocate_local_teid ue psi = ue * 2 ^ 8 + psi := by
  have h1 : u32 ue = ue := Nat.mod_eq_of_lt (by simp [u32] at *; omega)
  have h2 : u32 psi = psi := Nat.mod_eq_of_lt (by omega)
  have h3 : u32 (ue * 2 ^ 8) = ue * 2 ^ 8 := Nat.mod_eq_of_lt (by nlinarith)
  unfold allocate_local_teid
  rw [h1, h2, h3]
  exact mul_two_pow_lor_eq_add 8 ue psi hpsi

/-- Closed form of the F1-U uplink local TEID for in-range inputs. -/
theorem allocate_local_f1u_teid_eq (ue psi drb : Nat)
    (hue : ue < 2 ^ 8) (hpsi : psi < 2 ^ 8) (hdrb : drb < 2 ^ 8) :
    allocate_local_f1u_teid ue psi drb = ue * 2 ^ 16 + psi * 2 ^ 8 + drb := by
  have h1 : u32 ue = ue := Nat.mod_eq_of_lt (by omega)
  have h2 : u32 psi = psi := Nat.mod_eq_of_lt (by omega)
  have h3 : u32 drb = drb := Nat.mod_eq_of_lt (by omega)
  have h4 : u32 (ue * 2 ^ 8) = ue * 2 ^ 8 := Nat.mod_eq_of_lt (by nlinarith)
  have h5 : (ue * 2 ^ 8) ||| psi = ue * 2 ^ 8 + psi := mul_two_pow_lor_eq_add 8 ue psi hpsi
  have h6 : u32 ((ue * 2 ^ 8 + psi) * 2 ^ 8) = (ue * 2 ^ 8 + psi) * 2 ^ 8 :=
    Nat.mod_eq_of_lt (by nlinarith)
  have h7 : ((ue * 2 ^ 8 + psi) * 2 ^ 8) ||| drb = (ue * 2 ^ 8 + psi) * 2 ^ 8 + drb :=
    mul_two_pow_lor_eq_add 8 (ue * 2 ^ 8 + psi) drb hdrb
  unfold allocate_local_f1u_teid
  rw [h1, h2, h3, h4, h5, h6, h7]
  ring

/-- C2: local TEID derivation is a pure function of (UE index, session id,
DRB id) with the exact bit layout `(ue <<< 8) ||| sid` for the N3 TEID and
`(ue <<< 16) ||| (sid <<< 8) ||| drb` for the F1-U uplink TEID; within the
8-bit field widths identical inputs give identical TEIDs and two TEIDs are
equal exactly when all the packed inputs coincide, so varying any one input
with the others fixed changes the TEID. -/
theorem C2_local_teid_scheme (ue sid drb ue' sid' drb' : Nat)
    (hue : ue < 2 ^ 8) (hsid : sid < 2 ^ 8) (hdrb : drb < 2 ^ 8)
    (hue' : ue' < 2 ^ 8) (hsid' : sid' < 2 ^ 8) (hdrb' : drb' < 2 ^ 8) :
    allocate_local_teid ue sid = (ue <<< 8) ||| sid ∧
    allocate_local_f1u_teid ue sid drb = (ue <<< 16) ||| (sid <<< 8) ||| drb ∧
    (allocate_local_teid ue sid = allocate_local_teid ue' sid' ↔ (ue = ue' ∧ sid = sid')) ∧
    (allocate_local_f1u_teid ue sid drb = allocate_local_f1u_teid ue' sid' drb' ↔
      (ue = ue' ∧ sid = sid' ∧ drb = drb')) := by
  have e1 := allocate_local_teid_eq ue sid hue hsid
  have e1' := allocate_local_teid_eq ue' sid' hue' hsid'
  have e2 := allocate_local_f1u_teid_eq ue sid drb hue hsid hdrb
  have e2' := allocate_local_f1u_teid_eq ue' sid' drb' hue' hsid' hdrb'
  refine ⟨?_, ?_, ?_, ?_⟩
  · rw [e1, Nat.shiftLeft_eq, mul_two_pow_lor_eq_add 8 ue sid hsid]
  · have hsl : sid <<< 8 = sid * 2 ^ 8 := Nat.shiftLeft_eq sid 8
    have hlow : (sid <<< 8) ||| drb = sid * 2 ^ 8 + drb := by
      rw [hsl]
      exact mul_two_pow_lor_eq_add 8 sid drb hdrb
    have hlowlt : sid * 2 ^ 8 + drb < 2 ^ 16 := by nlinarith
    rw [e2, Nat.shiftLeft_eq, Nat.lor_assoc, hlow,
      mul_two_pow_lor_eq_add 16 ue (sid * 2 ^ 8 + drb) hlowlt]
    ring
  · rw [e1, e1']
    constructor
    · intro h
      constructor <;> omega
    · rintro ⟨rfl, rfl⟩
      rfl
  · rw [e2, e2']
    constructor
    · intro h
      refine ⟨?_, ?_, ?_⟩ <;> omega
    · rintro ⟨rfl, rfl, rfl⟩
      rfl

/-- Witness instantiating `C2_local_teid_scheme` at concrete in-range
inputs: the scenario of the spec (session id 5, DRB id 1). -/
theorem C2_local_teid_scheme_witness :
    allocate_local_teid 7 5 = (7 <<< 8) ||| 5 ∧
    allocate_local_f1u_teid 7 5 1 = (7 <<< 16) ||| (5 <<< 8) ||| 1 ∧
    (allocate_local_teid 7 5 = allocate_local_teid 7 6 ↔ (7 = 7 ∧ 5 = 6)) ∧
    (allocate_local_f1u_teid 7 5 1 = allocate_local_f1u_teid 7 5 2 ↔
      (7 = 7 ∧ 5 = 5 ∧ 1 = 2)) := by
  have h := C2_local_teid_scheme 7 5 1 7 6 2 (by norm_num) (by norm_num) (by norm_num)
    (by norm_num) (by norm_num) (by norm_num)
  have h' := C2_local_teid_scheme 7 5 1 7 5 2 (by norm_num) (by norm_num) (by norm_num)
    (by norm_num) (by norm_num) (by norm_num)
  exact ⟨h.1, h.2.1, h.2.2.1, h'.2.2.2⟩

/-! ### Data model of the bearer-context lifecycle manager -/

/-- Failure causes carried in E1AP results (`cause_t` of
`e1ap_types.h`; the lifecycle manager uses `radio_network` and `misc`). -/
inductive cause_t where
  | radio_network
  | transport
  | protocol
  | misc
  deriving DecidableEq, Repr

/-- One QoS flow to be set up inside a DRB descriptor
(`e1ap_qos_flow_qos_param_item`). -/
structure e1ap_qos_flow_qos_param_item where
  qos_flow_id : Nat
  five_qi : Nat
  deriving DecidableEq, Repr

/-- One DRB of a bearer-context-setup session descriptor
(`e1ap_drb_to_setup_item_ng_ran`). -/
structure e1ap_drb_to_setup_item_ng_ran where
  drb_id : Nat
  qos_flow_info_to_be_setup : List e1ap_qos_flow_qos_param_item
  deriving DecidableEq, Repr

/-- A bearer-context-setup session descriptor
(`e1ap_pdu_session_res_to_setup_item`); `ul_teid` is the peer tunnel
endpoint of `ng_ul_up_tnl_info`. -/
structure e1ap_pdu_session_res_to_setup_item where
  pdu_session_id : Nat
  ul_teid : Nat
  drb_to_setup_list_ng_ran : List e1ap_drb_to_setup_item_ng_ran
  deriving DecidableEq, Repr

/-- One DRB of a modification descriptor
(`e1ap_drb_to_modify_item_ng_ran`); `dl_teid` is
`dl_up_params[0].up_tnl_info.gtp_teid`. -/
structure e1ap_drb_to_modify_item_ng_ran where
  drb_id : Nat
  dl_teid : Nat
  deriving DecidableEq, Repr

/-- A bearer-context-modification session descriptor
(`e1ap_pdu_session_res_to_modify_item`). -/
structure e1ap_pdu_session_res_to_modify_item where
  pdu_session_id : Nat
  drb_to_setup_list_ng_ran : List e1ap_drb_to_setup_item_ng_ran
  drb_to_modify_list_ng_ran : List e1ap_drb_to_modify_item_ng_ran
  drb_to_rem_list_ng_ran : List Nat
  deriving DecidableEq, Repr

/-- A QoS flow context owned by a DRB (`qos_flow_context`): the identifier,
the 5QI taken from the QoS parameters, and the generation number of the
PDCP entity its SDAP-to-PDCP adapter is connected to. -/
structure qos_flow_context where
  qos_flow_id : Nat
  five_qi : Nat
  sdap_to_pdcp_conn : Option Nat
  deriving DecidableEq, Repr

/-- A DRB context owned by a PDU session (`drb_context`).  `ctx_gen` is the
generation number stamped on the `drb_context` object at construction, so
that keeping versus replacing the object is observable; `pdcp_gen` and
`f1u_gen` are the generation numbers of the PDCP entity and the F1-U
bearer currently plugged into the context (`none` until created). -/
structure drb_context where
  drb_id : Nat
  ctx_gen : Nat
  pdcp_gen : Option Nat
  f1u_gen : Option Nat
  f1u_ul_teid : Option Nat
  qos_flows : List (Nat × qos_flow_context)
  deriving DecidableEq, Repr

/-- A PDU session resource tree (`pdu_session`): identifiers and peer
tunnel info from the request, the locally-allocated TEID, the SDAP and
GTP-U entities (generation numbers, `none` until created), the SDAP
QoS-flow-to-DRB mapping table, and the owned DRB contexts. -/
structure pdu_session where
  pdu_session_id : Nat
  ul_teid : Nat
  local_teid : Nat
  sdap_gen : Option Nat
  gtpu_gen : Option Nat
  sdap_mappings : List (Nat × Nat)
  drbs : List (Nat × drb_context)
  deriving DecidableEq, Repr

/-- The whole mutable state touched by `pdu_session_manager_impl`: the
member `pdu_sessions` map, the GTP-U demultiplexer registration set, the
F1-U gateway call logs (bearers created, downlink TEIDs attached, bearers
disconnected), a freshness counter for created protocol entities, and the
per-severity logger call counts.  `max_num_pdu_sessions` stands for the
compile-time ceiling `MAX_NUM_PDU_SESSIONS_PER_UE`, whose defining header
is outside this excerpt; modelled from the spec: "at most a configured
maximum number of concurrent sessions per UE". -/
structure manager_state where
  ue_index : Nat
  max_num_pdu_sessions : Nat
  pdu_sessions : List (Nat × pdu_session)
  demux_teids : List Nat
  gw_create_log : List Nat
  gw_attach_log : List (Nat × Nat)
  gw_disconnect_log : List Nat
  next_gen : Nat
  log_error_count : Nat
  log_warning_count : Nat
  deriving DecidableEq, Repr

/-- Per-QoS-flow part of a DRB result (`qos_flow_setup_result`). -/
structure qos_flow_setup_result where
  success : Bool
  cause : cause_t
  qos_flow_id : Nat
  deriving DecidableEq, Repr

/-- Per-DRB result (`drb_setup_result`). -/
structure drb_setup_result where
  success : Bool
  cause : cause_t
  drb_id : Nat
  gtp_tunnel_teid : Option Nat
  qos_flow_results : List qos_flow_setup_result
  deriving DecidableEq, Repr

/-- Result of `setup_pdu_session` (`pdu_session_setup_result`). -/
structure pdu_session_setup_result where
  success : Bool
  cause : cause_t
  pdu_session_id : Nat
  gtp_tunnel_teid : Option Nat
  drb_setup_results : List drb_setup_result
  deriving DecidableEq, Repr

/-- Result of `modify_pdu_session` (`pdu_session_modification_result`). -/
structure pdu_session_modification_result where
  success : Bool
  cause : cause_t
  pdu_session_id : Nat
  drb_setup_results : List drb_setup_result
  drb_modification_results : List drb_setup_result
  deriving DecidableEq, Repr

/-! ### Collaborator operations

The SDAP entity and the F1-U gateway implementations are outside this
excerpt; their effects are modelled from the spec at the granularity the
lifecycle manager observes. -/

/-- Modelled from the spec: the SDAP entity's `add_mapping(qfi, drb_id, ...)`
("an SDAP mapping entry keyed by QoS-flow id") — the SDAP implementation is
not part of this excerpt; it records that the QoS flow is mapped to the
DRB, keyed by QoS-flow id. -/
def sdap_add_mapping (m : List (Nat × Nat)) (qfi drb : Nat) : List (Nat × Nat) :=
  massign m qfi drb

/-- Modelled from the spec: the SDAP entity's `remove_mapping(drb_id)`
("unmaps all QoS flows for that DRB from SDAP") — the SDAP implementation
is not part of this excerpt; it drops every mapping entry whose DRB equals
the given id. -/
def sdap_remove_mapping (m : List (Nat × Nat)) (drb : Nat) : List (Nat × Nat) :=
  m.filter (fun p => p.2 ≠ drb)

/-- Number of SDAP mapping entries pointing at a given DRB. -/
def sdap_mapping_count (m : List (Nat × Nat)) (drb : Nat) : Nat :=
  (m.filter (fun p => p.2 = drb)).length

/-! ### `pdu_session_manager_impl` operations -/

/-- The in-place effect of one QoS-flow creation on the DRB context at
the key: the QoS-flow context is stored under its id (`operator[]`
assignment, so a duplicate flow id is replaced) with its SDAP-to-PDCP
adapter connected to the PDCP entity `pdcp_gen`. -/
def qos_flow_attach (qf : e1ap_qos_flow_qos_param_item) (pdcp_gen : Nat)
    (d : drb_context) : drb_context :=
  let new_flow : qos_flow_context :=
    { qos_flow_id := qf.qos_flow_id, five_qi := qf.five_qi,
      sdap_to_pdcp_conn := some pdcp_gen }
  { d with qos_flows := massign d.qos_flows qf.qos_flow_id new_flow }

/-- One iteration of the QoS-flow loop of `handle_drb_to_setup_item`:
creates the QoS-flow context inside the DRB context at `drb_id` through
`qos_flow_attach`, adds the SDAP mapping, and pushes one success
sub-result. -/
def qos_flow_setup_step (drb_id pdcp_gen : Nat)
    (acc : pdu_session × List qos_flow_setup_result)
    (qf : e1ap_qos_flow_qos_param_item) :
    pdu_session × List qos_flow_setup_result :=
  let sess := acc.1
  let sess := { sess with
    drbs := mupdate sess.drbs drb_id (qos_flow_attach qf pdcp_gen),
    sdap_mappings := sdap_add_mapping sess.sdap_mappings qf.qos_flow_id drb_id }
  (sess, acc.2 ++
    [{ success := true, cause := cause_t.radio_network, qos_flow_id := qf.qos_flow_id }])

/-- Embedding of `pdu_session_manager_impl::handle_drb_to_setup_item`:
emplaces a `drb_context` (kept if the id already exists, as
`std::map::emplace`), creates a PDCP entity into the context at that key,
allocates the local F1-U uplink TEID, creates the F1-U bearer at the
gateway, then processes every QoS flow in the descriptor through
`qos_flow_setup_step`, accumulating one success sub-result per flow; the
overall DRB result is success. -/
def handle_drb_to_setup_item (st : manager_state) (sess : pdu_session)
    (item : e1ap_drb_to_setup_item_ng_ran) :
    manager_state × pdu_session × drb_setup_result :=
  let ctx_gen := st.next_gen
  let st := { st with next_gen := st.next_gen + 1 }
  let sess := { sess with
    drbs := memplace sess.drbs item.drb_id
      { drb_id := item.drb_id, ctx_gen := ctx_gen, pdcp_gen := none,
        f1u_gen := none, f1u_ul_teid := none, qos_flows := [] } }
  let pdcp_gen := st.next_gen
  let st := { st with next_gen := st.next_gen + 1 }
  let sess := { sess with
    drbs := mupdate sess.drbs item.drb_id (fun d => { d with pdcp_gen := some pdcp_gen }) }
  let f1u_teid := allocate_local_f1u_teid st.ue_index sess.pdu_session_id item.drb_id
  let f1u_gen := st.next_gen
  let st := { st with next_gen := st.next_gen + 1,
                      gw_create_log := st.gw_create_log ++ [f1u_teid] }
  let sess := { sess with
    drbs := mupdate sess.drbs item.drb_id
      (fun d => { d with f1u_gen := some f1u_gen, f1u_ul_teid := some f1u_teid }) }
  let folded := item.qos_flow_info_to_be_setup.foldl
    (qos_flow_setup_step item.drb_id pdcp_gen) (sess, [])
  (st, folded.1,
    { success := true, cause := cause_t.radio_network, drb_id := item.drb_id,
      gtp_tunnel_teid := some f1u_teid, qos_flow_results := folded.2 })

/-- One iteration of the DRB-to-setup loop shared by `setup_pdu_session`
and `modify_pdu_session`: processes the descriptor through
`handle_drb_to_setup_item` and pushes the per-DRB result. -/
def drb_setup_fold_step
    (acc : manager_state × pdu_session × List drb_setup_result)
    (ditem : e1ap_drb_to_setup_item_ng_ran) :
    manager_state × pdu_session × List drb_setup_result :=
  let out := handle_drb_to_setup_item acc.1 acc.2.1 ditem
  (out.1, out.2.1, acc.2.2 ++ [out.2.2])

/-- Embedding of `pdu_session_manager_impl::setup_pdu_session`: fails fast
(result initialized to `success = false`, `cause = radio_network`) if the
session id is already present or the per-UE ceiling is reached; otherwise
emplaces the new session, allocates the local N3 TEID, creates the SDAP
and GTP-U entities, registers the TEID at the demultiplexer — returning
the failure result if the TEID is already registered, with the emplaced
session left in the map exactly as the source does — and finally processes
every DRB descriptor through `handle_drb_to_setup_item`. -/
def setup_pdu_session (st : manager_state)
    (item : e1ap_pdu_session_res_to_setup_item) :
    manager_state × pdu_session_setup_result :=
  let fail : pdu_session_setup_result :=
    { success := false, cause := cause_t.radio_network,
      pdu_session_id := item.pdu_session_id, gtp_tunnel_teid := none,
      drb_setup_results := [] }
  if (mfind st.pdu_sessions item.pdu_session_id).isSome then
    ({ st with log_error_count := st.log_error_count + 1 }, fail)
  else if st.pdu_sessions.length ≥ st.max_num_pdu_sessions then
    ({ st with log_error_count := st.log_error_count + 1 }, fail)
  else
    let sdap_gen := st.next_gen
    let gtpu_gen := st.next_gen + 1
    let st := { st with next_gen := st.next_gen + 2 }
    let local_teid := allocate_local_teid st.ue_index item.pdu_session_id
    let sess : pdu_session :=
      { pdu_session_id := item.pdu_session_id, ul_teid := item.ul_teid,
        local_teid := local_teid, sdap_gen := some sdap_gen,
        gtpu_gen := some gtpu_gen, sdap_mappings := [], drbs := [] }
    let st := { st with
      pdu_sessions := memplace st.pdu_sessions item.pdu_session_id sess }
    let result := { fail with gtp_tunnel_teid := some local_teid }
    if local_teid ∈ st.demux_teids then
      ({ st with log_error_count := st.log_error_count + 1 }, result)
    else
      let st := { st with demux_teids := st.demux_teids ++ [local_teid] }
      let folded := item.drb_to_setup_list_ng_ran.foldl drb_setup_fold_step (st, sess, [])
      let st := { folded.1 with
        pdu_sessions := massign folded.1.pdu_sessions item.pdu_session_id folded.2.1 }
      (st, { result with success := true, drb_setup_results := folded.2.2 })

/-- The per-DRB result record as initialized at the top of both loop
bodies of `modify_pdu_session` (`success = false`,
`cause = radio_network`), pushed unchanged for an unknown DRB id. -/
def drb_fail (d : Nat) : drb_setup_result :=
  { success := false, cause := cause_t.radio_network, drb_id := d,
    gtp_tunnel_teid := none, qos_flow_results := [] }

/-- One iteration of the DRB-to-modify loop of
`pdu_session_manager_impl::modify_pdu_session`: an id not found in the
session pushes a failure result (onto `drb_setup_results`, as the source
does) and continues; a found DRB gets its learned downlink TEID attached
at the F1-U gateway and pushes a success result onto
`drb_modification_results`. -/
def drb_to_modify_step
    (acc : manager_state × pdu_session × List drb_setup_result × List drb_setup_result)
    (m : e1ap_drb_to_modify_item_ng_ran) :
    manager_state × pdu_session × List drb_setup_result × List drb_setup_result :=
  let st := acc.1
  let sess := acc.2.1
  match mfind sess.drbs m.drb_id with
  | none =>
    ({ st with log_warning_count := st.log_warning_count + 1 }, sess,
      acc.2.2.1 ++ [drb_fail m.drb_id], acc.2.2.2)
  | some d =>
    let st := { st with
      gw_attach_log := st.gw_attach_log ++ [(d.f1u_ul_teid.getD 0, m.dl_teid)] }
    (st, sess, acc.2.2.1, acc.2.2.2 ++ [{ drb_fail m.drb_id with success := true }])

/-- One iteration of the DRB-to-remove loop of
`pdu_session_manager_impl::modify_pdu_session`: first unmaps from SDAP all
QoS flows that use the DRB, then — if the DRB exists — erases the DRB
context; an unknown id is logged and skipped. -/
def drb_to_rem_step (acc : manager_state × pdu_session) (drb : Nat) :
    manager_state × pdu_session :=
  let st := acc.1
  let sess := acc.2
  let sess := { sess with sdap_mappings := sdap_remove_mapping sess.sdap_mappings drb }
  match mfind sess.drbs drb with
  | none => ({ st with log_warning_count := st.log_warning_count + 1 }, sess)
  | some _ => (st, { sess with drbs := merase sess.drbs drb })

/-- Embedding of `pdu_session_manager_impl::modify_pdu_session`: fails
(result initialized to `success = false`, `cause = misc`) if the session
id is unknown; otherwise processes the to-setup list through
`handle_drb_to_setup_item`, the to-modify list through
`drb_to_modify_step` and the to-remove list through `drb_to_rem_step`,
and returns success. -/
def modify_pdu_session (st : manager_state)
    (item : e1ap_pdu_session_res_to_modify_item) :
    manager_state × pdu_session_modification_result :=
  let fail : pdu_session_modification_result :=
    { success := false, cause := cause_t.misc,
      pdu_session_id := item.pdu_session_id, drb_setup_results := [],
      drb_modification_results := [] }
  match mfind st.pdu_sessions item.pdu_session_id with
  | none => ({ st with log_error_count := st.log_error_count + 1 }, fail)
  | some sess =>
    let folded_setup := item.drb_to_setup_list_ng_ran.foldl drb_setup_fold_step (st, sess, [])
    let folded_mod := item.drb_to_modify_list_ng_ran.foldl drb_to_modify_step
      (folded_setup.1, folded_setup.2.1, folded_setup.2.2, [])
    let folded_rem := item.drb_to_rem_list_ng_ran.foldl drb_to_rem_step
      (folded_mod.1, folded_mod.2.1)
    let st := { folded_rem.1 with
      pdu_sessions := massign folded_rem.1.pdu_sessions item.pdu_session_id folded_rem.2 }
    let result := { fail with
      success := true,
      drb_setup_results := folded_mod.2.2.1,
      drb_modification_results := folded_mod.2.2.2 }
    (st, result)

/-- Embedding of `pdu_session_manager_impl::remove_pdu_session`: an
unknown id is a logged no-op; otherwise every DRB's F1-U bearer is
disconnected at the gateway and the session is erased. -/
def remove_pdu_session (st : manager_state) (psi : Nat) : manager_state :=
  match mfind st.pdu_sessions psi with
  | none => { st with log_error_count := st.log_error_count + 1 }
  | some sess =>
    let st := sess.drbs.foldl
      (fun st d =>
        { st with gw_disconnect_log := st.gw_disconnect_log ++ [d.2.f1u_ul_teid.getD 0] })
      st
    { st with pdu_sessions := merase st.pdu_sessions psi }

/-! ### Association-list lemmas -/

theorem mfind_eq_none_of_not_mem_keys {α : Type} (m : List (Nat × α)) (key : Nat)
    (h : key ∉ m.map Prod.fst) : mfind m key = none := by
  induction m with
  | nil => rfl
  | cons p rest ih =>
    simp only [List.map_cons, List.mem_cons] at h
    push_neg at h
    simp only [mfind]
    rw [if_neg (by omega), ih h.2]

theorem mfind_append_single {α : Type} (m : List (Nat × α)) (k : Nat) (v : α) (key : Nat) :
    mfind (m ++ [(k, v)]) key =
      match mfind m key with
      | some w => some w
      | none => if k = key then some v else none := by
  induction m with
  | nil => simp [mfind]
  | cons p rest ih =>
    simp only [List.cons_append, mfind]
    by_cases h : p.1 = key <;> simp [h, ih]

theorem mfind_memplace_self {α : Type} (m : List (Nat × α)) (key : Nat) (v : α)
    (h : mfind m key = none) : mfind (memplace m key v) key = some v := by
  simp [memplace, h, mfind_append_single]

theorem mfind_memplace_other {α : Type} (m : List (Nat × α)) (key : Nat) (v : α) (k : Nat)
    (h : k ≠ key) : mfind (memplace m key v) k = mfind m k := by
  unfold memplace
  by_cases hs : (mfind m key).isSome
  · simp [hs]
  · rw [if_neg (by simp [hs]), mfind_append_single]
    cases hm : mfind m k with
    | some w => rfl
    | none => simp [Ne.symm h]

theorem memplace_of_isSome {α : Type} (m : List (Nat × α)) (key : Nat) (v : α)
    (h : (mfind m key).isSome) : memplace m key v = m := by
  simp [memplace, h]

theorem mfind_mupdate_self {α : Type} (m : List (Nat × α)) (key : Nat) (f : α → α) (v : α)
    (h : mfind m key = some v) : mfind (mupdate m key f) key = some (f v) := by
  induction m with
  | nil => simp [mfind] at h
  | cons p rest ih =>
    obtain ⟨k0, w⟩ := p
    by_cases hk : k0 = key
    · simp only [mfind, if_pos hk, Option.some.injEq] at h
      simp only [mupdate, if_pos hk, mfind, Option.some.injEq]
      rw [h]
    · simp only [mfind, if_neg hk] at h
      simp only [mupdate, if_neg hk, mfind]
      exact ih h

theorem mfind_mupdate_other {α : Type} (m : List (Nat × α)) (key : Nat) (f : α → α) (k : Nat)
    (h : k ≠ key) : mfind (mupdate m key f) k = mfind m k := by
  induction m with
  | nil => rfl
  | cons p rest ih =>
    obtain ⟨k0, w⟩ := p
    by_cases hk : k0 = key
    · subst hk
      have e : mupdate ((k0, w) :: rest) k0 f = (k0, f w) :: rest := by
        simp [mupdate]
      rw [e]
      simp [mfind, Ne.symm h]
    · have e : mupdate ((k0, w) :: rest) key f = (k0, w) :: mupdate rest key f := by
        simp [mupdate, hk]
      rw [e]
      by_cases hk2 : k0 = k
      · simp [mfind, hk2]
      · simp [mfind, hk2, ih]

theorem mfind_massign_self {α : Type} (m : List (Nat × α)) (key : Nat) (v : α) :
    mfind (massign m key v) key = some v := by
  induction m with
  | nil => simp [massign, mfind]
  | cons p rest ih =>
    obtain ⟨k0, w⟩ := p
    by_cases hk : k0 = key
    · simp [massign, hk, mfind]
    · simp [massign, hk, mfind, ih]

theorem mfind_massign_other {α : Type} (m : List (Nat × α)) (key : Nat) (v : α) (k : Nat)
    (h : k ≠ key) : mfind (massign m key v) k = mfind m k := by
  induction m with
  | nil => simp [massign, mfind, Ne.symm h]
  | cons p rest ih =>
    obtain ⟨k0, w⟩ := p
    by_cases hk : k0 = key
    · subst hk
      simp [massign, mfind, Ne.symm h]
    · by_cases hk2 : k0 = k
      · subst hk2
        simp [massign, hk, mfind]
      · simp [massign, hk, mfind, hk2, ih]

theorem mfind_merase_self {α : Type} (m : List (Nat × α)) (key : Nat)
    (h : (m.map Prod.fst).Nodup) : mfind (merase m key) key = none := by
  induction m with
  | nil => rfl
  | cons p rest ih =>
    simp only [List.map_cons, List.nodup_cons] at h
    simp only [merase]
    by_cases hk : p.1 = key
    · subst hk
      rw [if_pos rfl]
      exact mfind_eq_none_of_not_mem_keys rest p.1 h.1
    · rw [if_neg hk]
      simp only [mfind]
      rw [if_neg hk]
      exact ih h.2

/-! ### Behaviour of the gateway-disconnect loop -/

theorem gw_disconnect_foldl (l : List (Nat × drb_context)) :
    ∀ st : manager_state,
      l.foldl (fun st d =>
        { st with gw_disconnect_log := st.gw_disconnect_log ++ [d.2.f1u_ul_teid.getD 0] }) st =
      { st with gw_disconnect_log :=
          st.gw_disconnect_log ++ l.map (fun d => d.2.f1u_ul_teid.getD 0) } := by
  induction l with
  | nil => intro st; simp
  | cons d rest ih =>
    intro st
    rw [List.foldl_cons, ih]
    simp

/-- C7: `remove_pdu_session` with an unknown id changes nothing but the
error-log count (no exception is possible — the embedding is a total
function — and the session map and gateway are untouched, with exactly one
more logged error); with a known id it disconnects every DRB's F1-U bearer
at the gateway and erases the session; and, for a state with well-formed
(duplicate-free) session keys, a second call on an already-removed id is
again a logged no-op. -/
theorem C7_remove_pdu_session_contract (st : manager_state) (psi : Nat) :
    (mfind st.pdu_sessions psi = none →
      remove_pdu_session st psi = { st with log_error_count := st.log_error_count + 1 }) ∧
    (∀ sess, mfind st.pdu_sessions psi = some sess →
      remove_pdu_session st psi =
        { st with
          pdu_sessions := merase st.pdu_sessions psi,
          gw_disconnect_log :=
            st.gw_disconnect_log ++ sess.drbs.map (fun d => d.2.f1u_ul_teid.getD 0) }) ∧
    ((st.pdu_sessions.map Prod.fst).Nodup →
      remove_pdu_session (remove_pdu_session st psi) psi =
        { remove_pdu_session st psi with
          log_error_count := (remove_pdu_session st psi).log_error_count + 1 }) := by
  have hnone : mfind st.pdu_sessions psi = none →
      remove_pdu_session st psi = { st with log_error_count := st.log_error_count + 1 } := by
    intro h
    unfold remove_pdu_session
    rw [h]
  have hsome : ∀ sess, mfind st.pdu_sessions psi = some sess →
      remove_pdu_session st psi =
        { st with
          pdu_sessions := merase st.pdu_sessions psi,
          gw_disconnect_log :=
            st.gw_disconnect_log ++ sess.drbs.map (fun d => d.2.f1u_ul_teid.getD 0) } := by
    intro sess h
    unfold remove_pdu_session
    rw [h]
    simp only [gw_disconnect_foldl]
  refine ⟨hnone, hsome, ?_⟩
  intro hnodup
  cases hm : mfind st.pdu_sessions psi with
  | none =>
    rw [hnone hm]
    have h2 : mfind ({ st with log_error_count := st.log_error_count + 1 } :
        manager_state).pdu_sessions psi = none := hm
    unfold remove_pdu_session
    rw [h2]
  | some sess =>
    rw [hsome sess hm]
    have h2 : mfind (merase st.pdu_sessions psi) psi = none :=
      mfind_merase_self st.pdu_sessions psi hnodup
    unfold remove_pdu_session
    rw [h2]

/-- Concrete DRB context used by the example states of the witnesses:
DRB id 1 with F1-U uplink TEID 66817 = (1 <<< 16) ||| (5 <<< 8) ||| 1. -/
def ex_drb : drb_context :=
  { drb_id := 1, ctx_gen := 2, pdcp_gen := some 3, f1u_gen := some 4,
    f1u_ul_teid := some 66817, qos_flows := [] }

/-- Concrete PDU session used by the example states of the witnesses:
session id 5 with local TEID 261 = (1 <<< 8) ||| 5, one DRB and one SDAP
mapping of QoS flow 9 onto DRB 1. -/
def ex_session : pdu_session :=
  { pdu_session_id := 5, ul_teid := 9000, local_teid := 261,
    sdap_gen := some 0, gtpu_gen := some 1, sdap_mappings := [(9, 1)],
    drbs := [(1, ex_drb)] }

/-- Concrete manager state used by the witnesses: UE index 1, holding
`ex_session`, with its TEIDs registered at the demultiplexer and the
gateway. -/
def ex_state : manager_state :=
  { ue_index := 1, max_num_pdu_sessions := 8, pdu_sessions := [(5, ex_session)],
    demux_teids := [261], gw_create_log := [66817], gw_attach_log := [],
    gw_disconnect_log := [], next_gen := 5, log_error_count := 0,
    log_warning_count := 0 }

/-- Witness instantiating `C7_remove_pdu_session_contract` on a concrete
state holding one session with one DRB: removal disconnects its bearer at
the gateway and erases the session. -/
theorem C7_remove_pdu_session_contract_witness :
    (remove_pdu_session ex_state 5).gw_disconnect_log = [66817] ∧
    (remove_pdu_session ex_state 5).pdu_sessions = [] := by
  have h := (C7_remove_pdu_session_contract ex_state 5).2.1 ex_session (by decide)
  rw [h]
  exact ⟨by decide, by decide⟩

/-- C1 (amended): when `setup_pdu_session` fails because the session id
already exists or because the per-UE ceiling is reached, the result has
`success = false` and `cause = radio_network` and the state is unchanged
except for one logged error — in particular the session map, the
demultiplexer and the gateway are untouched and a pre-existing session
with that id is not mutated; when it fails because registering the local
TEID with the demultiplexer fails, the result likewise has
`success = false` and `cause = radio_network` and no demultiplexer entry
and no gateway bearer is added, but the partially constructed session
remains in the UE's session map (pre-existing sessions with other ids are
untouched). -/
theorem C1_setup_failure_paths (st : manager_state)
    (item : e1ap_pdu_session_res_to_setup_item) :
    ((mfind st.pdu_sessions item.pdu_session_id).isSome →
      setup_pdu_session st item =
        ({ st with log_error_count := st.log_error_count + 1 },
         { success := false, cause := cause_t.radio_network,
           pdu_session_id := item.pdu_session_id, gtp_tunnel_teid := none,
           drb_setup_results := [] })) ∧
    (mfind st.pdu_sessions item.pdu_session_id = none →
      st.pdu_sessions.length ≥ st.max_num_pdu_sessions →
      setup_pdu_session st item =
        ({ st with log_error_count := st.log_error_count + 1 },
         { success := false, cause := cause_t.radio_network,
           pdu_session_id := item.pdu_session_id, gtp_tunnel_teid := none,
           drb_setup_results := [] })) ∧
    (mfind st.pdu_sessions item.pdu_session_id = none →
      st.pdu_sessions.length < st.max_num_pdu_sessions →
      allocate_local_teid st.ue_index item.pdu_session_id ∈ st.demux_teids →
      (setup_pdu_session st item).2.success = false ∧
      (setup_pdu_session st item).2.cause = cause_t.radio_network ∧
      (setup_pdu_session st item).1.demux_teids = st.demux_teids ∧
      (setup_pdu_session st item).1.gw_create_log = st.gw_create_log ∧
      (setup_pdu_session st item).1.log_error_count = st.log_error_count + 1 ∧
      (mfind (setup_pdu_session st item).1.pdu_sessions item.pdu_session_id).isSome ∧
      (∀ k, k ≠ item.pdu_session_id →
        mfind (setup_pdu_session st item).1.pdu_sessions k = mfind st.pdu_sessions k)) := by
  refine ⟨?_, ?_, ?_⟩
  · intro h
    unfold setup_pdu_session
    rw [if_pos h]
  · intro h1 h2
    unfold setup_pdu_session
    rw [if_neg (by simp [h1]), if_pos h2]
  · intro h1 h2 h3
    have h2' : ¬ st.pdu_sessions.length ≥ st.max_num_pdu_sessions := by omega
    have hs : setup_pdu_session st item =
        ({ st with
            next_gen := st.next_gen + 2,
            pdu_sessions := memplace st.pdu_sessions item.pdu_session_id
              { pdu_session_id := item.pdu_session_id, ul_teid := item.ul_teid,
                local_teid := allocate_local_teid st.ue_index item.pdu_session_id,
                sdap_gen := some st.next_gen, gtpu_gen := some (st.next_gen + 1),
                sdap_mappings := [], drbs := [] },
            log_error_count := st.log_error_count + 1 },
         { success := false, cause := cause_t.radio_network,
           pdu_session_id := item.pdu_session_id,
           gtp_tunnel_teid := some (allocate_local_teid st.ue_index item.pdu_session_id),
           drb_setup_results := [] }) := by
      unfold setup_pdu_session
      rw [if_neg (by simp [h1]), if_neg h2']
      simp only []
      rw [if_pos h3]
    rw [hs]
    refine ⟨rfl, rfl, rfl, rfl, rfl, ?_, ?_⟩
    · rw [mfind_memplace_self _ _ _ h1]
      rfl
    · intro k hk
      exact mfind_memplace_other _ _ _ _ hk

/-- Counterexample to C1 as stated: for UE index 1 and a setup request for
session id 2 arriving while the demultiplexer already holds TEID
258 = (1 <<< 8) ||| 2, the call returns a failure result
(`success = false`, `cause = radio_network`) and yet a new entry for
session 2 remains in the UE's session map, so the session map is not
unchanged on this failure path. -/
theorem C1_counterexample :
    (setup_pdu_session
      { ue_index := 1, max_num_pdu_sessions := 8, pdu_sessions := [],
        demux_teids := [258], gw_create_log := [], gw_attach_log := [],
        gw_disconnect_log := [], next_gen := 0, log_error_count := 0,
        log_warning_count := 0 }
      { pdu_session_id := 2, ul_teid := 9000,
        drb_to_setup_list_ng_ran := [] }).2.success = false ∧
    (setup_pdu_session
      { ue_index := 1, max_num_pdu_sessions := 8, pdu_sessions := [],
        demux_teids := [258], gw_create_log := [], gw_attach_log := [],
        gw_disconnect_log := [], next_gen := 0, log_error_count := 0,
        log_warning_count := 0 }
      { pdu_session_id := 2, ul_teid := 9000,
        drb_to_setup_list_ng_ran := [] }).2.cause = cause_t.radio_network ∧
    mfind (setup_pdu_session
      { ue_index := 1, max_num_pdu_sessions := 8, pdu_sessions := [],
        demux_teids := [258], gw_create_log := [], gw_attach_log := [],
        gw_disconnect_log := [], next_gen := 0, log_error_count := 0,
        log_warning_count := 0 }
      { pdu_session_id := 2, ul_teid := 9000,
        drb_to_setup_list_ng_ran := [] }).1.pdu_sessions 2 ≠ none := by
  refine ⟨by decide, by decide, by decide⟩

/-- Witness instantiating `C1_setup_failure_paths`: on `ex_state` (which
already holds session 5 and has TEID 261 registered), a duplicate setup
for session 5 leaves the state unchanged except the error log, and a
setup for session 6 whose TEID collides in the demultiplexer (after
registering 262 there) fails with the session retained. -/
theorem C1_setup_failure_paths_witness :
    setup_pdu_session ex_state
        { pdu_session_id := 5, ul_teid := 9000, drb_to_setup_list_ng_ran := [] } =
      ({ ex_state with log_error_count := ex_state.log_error_count + 1 },
       { success := false, cause := cause_t.radio_network, pdu_session_id := 5,
         gtp_tunnel_teid := none, drb_setup_results := [] }) ∧
    (setup_pdu_session { ex_state with demux_teids := [261, 262] }
        { pdu_session_id := 6, ul_teid := 9000,
          drb_to_setup_list_ng_ran := [] }).2.success = false ∧
    (mfind (setup_pdu_session { ex_state with demux_teids := [261, 262] }
        { pdu_session_id := 6, ul_teid := 9000,
          drb_to_setup_list_ng_ran := [] }).1.pdu_sessions 6).isSome := by
  have h1 := (C1_setup_failure_paths ex_state
    { pdu_session_id := 5, ul_teid := 9000, drb_to_setup_list_ng_ran := [] }).1
    (by decide)
  have h3 := (C1_setup_failure_paths { ex_state with demux_teids := [261, 262] }
    { pdu_session_id := 6, ul_teid := 9000, drb_to_setup_list_ng_ran := [] }).2.2
    (by decide) (by decide) (by decide)
  exact ⟨h1, h3.1, h3.2.2.2.2.2.1⟩

/-! ### Characterization of the setup loops -/

/-- The success sub-result pushed for one QoS flow (the `cause` field
keeps its `radio_network` initialization, as in the source). -/
def qos_ok (qfi : Nat) : qos_flow_setup_result :=
  { success := true, cause := cause_t.radio_network, qos_flow_id := qfi }

/-- The per-DRB success result produced by `handle_drb_to_setup_item` for
a UE index, a session id and a DRB descriptor. -/
def drb_ok (ue psi : Nat) (it : e1ap_drb_to_setup_item_ng_ran) : drb_setup_result :=
  { success := true, cause := cause_t.radio_network, drb_id := it.drb_id,
    gtp_tunnel_teid := some (allocate_local_f1u_teid ue psi it.drb_id),
    qos_flow_results := it.qos_flow_info_to_be_setup.map (fun qf => qos_ok qf.qos_flow_id) }

/-- The QoS-flow loop pushes exactly one success sub-result per flow, in
order, and does not change the session identifier. -/
theorem qos_fold_spec (did pg : Nat) (flows : List e1ap_qos_flow_qos_param_item) :
    ∀ (sess : pdu_session) (acc : List qos_flow_setup_result),
      (flows.foldl (qos_flow_setup_step did pg) (sess, acc)).2 =
        acc ++ flows.map (fun qf => qos_ok qf.qos_flow_id) ∧
      (flows.foldl (qos_flow_setup_step did pg) (sess, acc)).1.pdu_session_id =
        sess.pdu_session_id := by
  induction flows with
  | nil => intro sess acc; simp
  | cons qf rest ih =>
    intro sess acc
    rw [List.foldl_cons]
    rcases hs : qos_flow_setup_step did pg (sess, acc) qf with ⟨s1, a1⟩
    have ha1 : a1 = acc ++ [qos_ok qf.qos_flow_id] := by
      have he : (qos_flow_setup_step did pg (sess, acc) qf).2 =
          acc ++ [qos_ok qf.qos_flow_id] := rfl
      rw [hs] at he
      exact he
    have hs1 : s1.pdu_session_id = sess.pdu_session_id := by
      have he : (qos_flow_setup_step did pg (sess, acc) qf).1.pdu_session_id =
          sess.pdu_session_id := rfl
      rw [hs] at he
      exact he
    rcases ih s1 a1 with ⟨h1, h2⟩
    constructor
    · rw [h1, ha1]
      simp
    · rw [h2, hs1]

/-- Projection form of `qos_fold_spec` for rewriting: the result list. -/
theorem qos_fold_snd (did pg : Nat) (flows : List e1ap_qos_flow_qos_param_item)
    (sess : pdu_session) (acc : List qos_flow_setup_result) :
    (flows.foldl (qos_flow_setup_step did pg) (sess, acc)).2 =
      acc ++ flows.map (fun qf => qos_ok qf.qos_flow_id) :=
  (qos_fold_spec did pg flows sess acc).1

/-- Projection form of `qos_fold_spec` for rewriting: the session id. -/
theorem qos_fold_psi (did pg : Nat) (flows : List e1ap_qos_flow_qos_param_item)
    (sess : pdu_session) (acc : List qos_flow_setup_result) :
    (flows.foldl (qos_flow_setup_step did pg) (sess, acc)).1.pdu_session_id =
      sess.pdu_session_id :=
  (qos_fold_spec did pg flows sess acc).2

theorem handle_drb_to_setup_item_result (st : manager_state) (sess : pdu_session)
    (item : e1ap_drb_to_setup_item_ng_ran) :
    (handle_drb_to_setup_item st sess item).2.2 =
      drb_ok st.ue_index sess.pdu_session_id item ∧
    (handle_drb_to_setup_item st sess item).1.ue_index = st.ue_index ∧
    (handle_drb_to_setup_item st sess item).2.1.pdu_session_id = sess.pdu_session_id := by
  unfold handle_drb_to_setup_item
  simp only [qos_fold_snd, qos_fold_psi]
  refine ⟨by simp [drb_ok], by simp, by simp⟩

/-- The DRB-to-setup loop pushes exactly one per-DRB result per
descriptor, each a success with one success sub-result per QoS flow, and
preserves the UE index and the session identifier. -/
theorem drb_fold_spec (items : List e1ap_drb_to_setup_item_ng_ran) :
    ∀ (st : manager_state) (sess : pdu_session) (acc : List drb_setup_result),
      (items.foldl drb_setup_fold_step (st, sess, acc)).2.2 =
        acc ++ items.map (fun it => drb_ok st.ue_index sess.pdu_session_id it) ∧
      (items.foldl drb_setup_fold_step (st, sess, acc)).1.ue_index = st.ue_index ∧
      (items.foldl drb_setup_fold_step (st, sess, acc)).2.1.pdu_session_id =
        sess.pdu_session_id := by
  induction items with
  | nil => intro st sess acc; simp
  | cons it rest ih =>
    intro st sess acc
    rw [List.foldl_cons]
    rcases handle_drb_to_setup_item_result st sess it with ⟨hr, hue, hpsi⟩
    have hstep : drb_setup_fold_step (st, sess, acc) it =
        ((handle_drb_to_setup_item st sess it).1,
         (handle_drb_to_setup_item st sess it).2.1,
         acc ++ [(handle_drb_to_setup_item st sess it).2.2]) := rfl
    rw [hstep]
    rcases ih (handle_drb_to_setup_item st sess it).1
      (handle_drb_to_setup_item st sess it).2.1
      (acc ++ [(handle_drb_to_setup_item st sess it).2.2]) with ⟨h1, h2, h3⟩
    refine ⟨?_, by rw [h2, hue], by rw [h3, hpsi]⟩
    rw [h1, hr, hue, hpsi]
    simp

/-- Projection form of `drb_fold_spec` for rewriting: the result list. -/
theorem drb_fold_snd (items : List e1ap_drb_to_setup_item_ng_ran)
    (st : manager_state) (sess : pdu_session) (acc : List drb_setup_result) :
    (items.foldl drb_setup_fold_step (st, sess, acc)).2.2 =
      acc ++ items.map (fun it => drb_ok st.ue_index sess.pdu_session_id it) :=
  (drb_fold_spec items st sess acc).1

/-- On the success path, the result of `setup_pdu_session` is fully
determined: success, the allocated N3 TEID, and one `drb_ok` per DRB
descriptor. -/
theorem setup_pdu_session_success_result (st : manager_state)
    (item : e1ap_pdu_session_res_to_setup_item)
    (h1 : mfind st.pdu_sessions item.pdu_session_id = none)
    (h2 : st.pdu_sessions.length < st.max_num_pdu_sessions)
    (h3 : allocate_local_teid st.ue_index item.pdu_session_id ∉ st.demux_teids) :
    (setup_pdu_session st item).2 =
      { success := true, cause := cause_t.radio_network,
        pdu_session_id := item.pdu_session_id,
        gtp_tunnel_teid := some (allocate_local_teid st.ue_index item.pdu_session_id),
        drb_setup_results := item.drb_to_setup_list_ng_ran.map
          (fun it => drb_ok st.ue_index item.pdu_session_id it) } := by
  have h2' : ¬ st.pdu_sessions.length ≥ st.max_num_pdu_sessions := by omega
  unfold setup_pdu_session
  rw [if_neg (by simp [h1]), if_neg h2']
  simp only []
  rw [if_neg h3]
  simp only [drb_fold_snd]
  simp

/-- C3: for every valid setup descriptor — session id fresh, ceiling not
reached, demultiplexer registration succeeding — with N distinct DRBs each
carrying M QoS flows, the result of `setup_pdu_session` is a success
containing exactly N per-DRB results, every one a success containing
exactly M per-QoS-flow results, every one a success. -/
theorem C3_setup_results_shape (st : manager_state)
    (item : e1ap_pdu_session_res_to_setup_item) (M : Nat)
    (h1 : mfind st.pdu_sessions item.pdu_session_id = none)
    (h2 : st.pdu_sessions.length < st.max_num_pdu_sessions)
    (h3 : allocate_local_teid st.ue_index item.pdu_session_id ∉ st.demux_teids)
    (h4 : (item.drb_to_setup_list_ng_ran.map (fun it => it.drb_id)).Nodup)
    (h5 : ∀ it ∈ item.drb_to_setup_list_ng_ran,
      it.qos_flow_info_to_be_setup.length = M) :
    (setup_pdu_session st item).2.success = true ∧
    (setup_pdu_session st item).2.drb_setup_results.length =
      item.drb_to_setup_list_ng_ran.length ∧
    ∀ r ∈ (setup_pdu_session st item).2.drb_setup_results,
      r.success = true ∧ r.qos_flow_results.length = M ∧
      ∀ q ∈ r.qos_flow_results, q.success = true := by
  rw [setup_pdu_session_success_result st item h1 h2 h3]
  refine ⟨rfl, by simp, ?_⟩
  intro r hr
  simp only [List.mem_map] at hr
  obtain ⟨it, hit, rfl⟩ := hr
  refine ⟨rfl, ?_, ?_⟩
  · simp [drb_ok, h5 it hit]
  · intro q hq
    simp only [drb_ok, List.mem_map] at hq
    obtain ⟨qf, _, rfl⟩ := hq
    rfl

/-- Concrete empty manager state for UE index 1, used by the witnesses. -/
def ex_empty_state : manager_state :=
  { ue_index := 1, max_num_pdu_sessions := 8, pdu_sessions := [],
    demux_teids := [], gw_create_log := [], gw_attach_log := [],
    gw_disconnect_log := [], next_gen := 0, log_error_count := 0,
    log_warning_count := 0 }

/-- Concrete setup descriptor of the end-to-end scenario of the spec:
session id 5, one DRB (id 1) with one QoS flow (id 9). -/
def ex_setup_item : e1ap_pdu_session_res_to_setup_item :=
  { pdu_session_id := 5, ul_teid := 9000,
    drb_to_setup_list_ng_ran :=
      [{ drb_id := 1, qos_flow_info_to_be_setup := [{ qos_flow_id := 9, five_qi := 7 }] }] }

/-- Witness instantiating `C3_setup_results_shape` at the end-to-end
scenario of the spec: UE index 1, fresh session id 5, one DRB (id 1) with
one QoS flow (id 9), starting from an empty manager state. -/
theorem C3_setup_results_shape_witness :
    (setup_pdu_session ex_empty_state ex_setup_item).2.success = true ∧
    (setup_pdu_session ex_empty_state ex_setup_item).2.drb_setup_results.length = 1 := by
  have h := C3_setup_results_shape ex_empty_state ex_setup_item 1
    (by decide) (by decide) (by decide) (by decide) (by decide)
  exact ⟨h.1, h.2.1⟩

/-- Each iteration of the DRB-to-modify loop pushes exactly one result:
onto the setup-results list for an unknown id, onto the
modification-results list otherwise. -/
theorem modify_fold_len (ms : List e1ap_drb_to_modify_item_ng_ran) :
    ∀ acc : manager_state × pdu_session × List drb_setup_result × List drb_setup_result,
      (ms.foldl drb_to_modify_step acc).2.2.1.length +
        (ms.foldl drb_to_modify_step acc).2.2.2.length =
      acc.2.2.1.length + acc.2.2.2.length + ms.length := by
  induction ms with
  | nil => intro acc; simp
  | cons m rest ih =>
    intro acc
    rw [List.foldl_cons, ih]
    have hstep : (drb_to_modify_step acc m).2.2.1.length +
        (drb_to_modify_step acc m).2.2.2.length =
        acc.2.2.1.length + acc.2.2.2.length + 1 := by
      unfold drb_to_modify_step
      cases h : mfind acc.2.1.drbs m.drb_id <;> simp [h] <;> omega
    rw [hstep]
    simp [List.length_cons]
    omega

/-- C4: `modify_pdu_session` returns `success = false` exactly when the
session id is unknown for the UE, in which case the result carries
`cause = misc` and the state is unchanged but for one logged error; when
the session exists the overall result is a success regardless of
individual per-DRB outcomes, with exactly one per-item result for every
entry of the to-setup and to-modify lists; and a to-modify entry whose
DRB id is not present pushes a per-item failure result and leaves the
session and the gateway untouched, processing continuing with the
remaining items. -/
theorem C4_modify_contract (st : manager_state)
    (item : e1ap_pdu_session_res_to_modify_item) :
    ((modify_pdu_session st item).2.success = false ↔
      mfind st.pdu_sessions item.pdu_session_id = none) ∧
    (mfind st.pdu_sessions item.pdu_session_id = none →
      modify_pdu_session st item =
        ({ st with log_error_count := st.log_error_count + 1 },
         { success := false, cause := cause_t.misc,
           pdu_session_id := item.pdu_session_id, drb_setup_results := [],
           drb_modification_results := [] })) ∧
    ((mfind st.pdu_sessions item.pdu_session_id).isSome →
      (modify_pdu_session st item).2.drb_setup_results.length +
        (modify_pdu_session st item).2.drb_modification_results.length =
      item.drb_to_setup_list_ng_ran.length + item.drb_to_modify_list_ng_ran.length) ∧
    (∀ (acc : manager_state × pdu_session × List drb_setup_result × List drb_setup_result)
       (m : e1ap_drb_to_modify_item_ng_ran),
      mfind acc.2.1.drbs m.drb_id = none →
      drb_to_modify_step acc m =
        ({ acc.1 with log_warning_count := acc.1.log_warning_count + 1 }, acc.2.1,
         acc.2.2.1 ++ [drb_fail m.drb_id], acc.2.2.2)) := by
  have hnone : mfind st.pdu_sessions item.pdu_session_id = none →
      modify_pdu_session st item =
        ({ st with log_error_count := st.log_error_count + 1 },
         { success := false, cause := cause_t.misc,
           pdu_session_id := item.pdu_session_id, drb_setup_results := [],
           drb_modification_results := [] }) := by
    intro h
    unfold modify_pdu_session
    rw [h]
  have hsome : ∀ sess, mfind st.pdu_sessions item.pdu_session_id = some sess →
      (modify_pdu_session st item).2.success = true := by
    intro sess h
    unfold modify_pdu_session
    rw [h]
  refine ⟨?_, hnone, ?_, ?_⟩
  · cases hm : mfind st.pdu_sessions item.pdu_session_id with
    | none => rw [hnone hm]; simp
    | some sess => rw [hsome sess hm]; simp
  · intro hm
    rw [Option.isSome_iff_exists] at hm
    obtain ⟨sess, hm⟩ := hm
    have hres : (modify_pdu_session st item).2.drb_setup_results =
        (item.drb_to_modify_list_ng_ran.foldl drb_to_modify_step
          ((item.drb_to_setup_list_ng_ran.foldl drb_setup_fold_step (st, sess, [])).1,
           (item.drb_to_setup_list_ng_ran.foldl drb_setup_fold_step (st, sess, [])).2.1,
           (item.drb_to_setup_list_ng_ran.foldl drb_setup_fold_step (st, sess, [])).2.2,
           [])).2.2.1 ∧
        (modify_pdu_session st item).2.drb_modification_results =
        (item.drb_to_modify_list_ng_ran.foldl drb_to_modify_step
          ((item.drb_to_setup_list_ng_ran.foldl drb_setup_fold_step (st, sess, [])).1,
           (item.drb_to_setup_list_ng_ran.foldl drb_setup_fold_step (st, sess, [])).2.1,
           (item.drb_to_setup_list_ng_ran.foldl drb_setup_fold_step (st, sess, [])).2.2,
           [])).2.2.2 := by
      unfold modify_pdu_session
      rw [hm]
      exact ⟨rfl, rfl⟩
    rw [hres.1, hres.2, modify_fold_len]
    simp only [drb_fold_snd]
    simp
  · intro acc m h
    unfold drb_to_modify_step
    simp only [h]

/-- Concrete modification descriptor: session 5, no to-setup items, one
to-modify item referencing the never-created DRB id 2, nothing to
remove. -/
def ex_modify_item : e1ap_pdu_session_res_to_modify_item :=
  { pdu_session_id := 5, drb_to_setup_list_ng_ran := [],
    drb_to_modify_list_ng_ran := [{ drb_id := 2, dl_teid := 777 }],
    drb_to_rem_list_ng_ran := [] }

/-- Witness instantiating `C4_modify_contract` on `ex_state` (holding
session 5 with only DRB 1) and a modification referencing the
never-created DRB 2: the scenario of the spec — overall success with one
per-item failure pushed. -/
theorem C4_modify_contract_witness :
    ((modify_pdu_session ex_state ex_modify_item).2.success = false ↔
      mfind ex_state.pdu_sessions 5 = none) ∧
    (modify_pdu_session ex_state ex_modify_item).2.drb_setup_results.length +
      (modify_pdu_session ex_state ex_modify_item).2.drb_modification_results.length = 1 ∧
    drb_to_modify_step (ex_state, ex_session, [], []) { drb_id := 2, dl_teid := 777 } =
      ({ ex_state with log_warning_count := ex_state.log_warning_count + 1 },
       ex_session, [drb_fail 2], []) := by
  have h := C4_modify_contract ex_state ex_modify_item
  refine ⟨h.1, ?_, ?_⟩
  · exact h.2.2.1 (by decide)
  · have hs := h.2.2.2 (ex_state, ex_session, [], []) { drb_id := 2, dl_teid := 777 }
      (by decide)
    simpa using hs

/-- C6: each iteration of the DRB-to-remove loop of
`modify_pdu_session` first unmaps from SDAP every QoS flow using the DRB
— after the unmap the SDAP mapping count for that DRB is zero — and only
then erases the DRB context: the session value at the erase point is
exactly the unmapped one, so a DRB context is never erased while SDAP
mappings for it still exist. -/
theorem C6_remove_unmaps_before_erase (st : manager_state) (sess : pdu_session)
    (drb : Nat) :
    sdap_mapping_count (sdap_remove_mapping sess.sdap_mappings drb) drb = 0 ∧
    (drb_to_rem_step (st, sess) drb).2.sdap_mappings =
      sdap_remove_mapping sess.sdap_mappings drb ∧
    sdap_mapping_count (drb_to_rem_step (st, sess) drb).2.sdap_mappings drb = 0 ∧
    ((mfind sess.drbs drb).isSome →
      drb_to_rem_step (st, sess) drb =
        (st, { sess with sdap_mappings := sdap_remove_mapping sess.sdap_mappings drb, drbs := merase sess.drbs drb })) := by
  have hcount : sdap_mapping_count (sdap_remove_mapping sess.sdap_mappings drb) drb = 0 := by
    unfold sdap_mapping_count sdap_remove_mapping
    rw [List.length_eq_zero, List.filter_filter]
    apply List.filter_eq_nil.mpr
    intro p hp
    by_cases h : p.2 = drb <;> simp [h]
  have hmaps : (drb_to_rem_step (st, sess) drb).2.sdap_mappings =
      sdap_remove_mapping sess.sdap_mappings drb := by
    unfold drb_to_rem_step
    simp only []
    cases hm : mfind sess.drbs drb <;> simp [hm]
  refine ⟨hcount, hmaps, by rw [hmaps]; exact hcount, ?_⟩
  intro hsome
  obtain ⟨d, hd⟩ := Option.isSome_iff_exists.mp hsome
  unfold drb_to_rem_step
  simp only [hd]

/-- Witness instantiating `C6_remove_unmaps_before_erase` on `ex_state`
and `ex_session` (QoS flow 9 mapped onto DRB 1): removing DRB 1 leaves a
session with zero mappings for DRB 1 and no DRB context. -/
theorem C6_remove_unmaps_before_erase_witness :
    sdap_mapping_count (drb_to_rem_step (ex_state, ex_session) 1).2.sdap_mappings 1 = 0 ∧
    (drb_to_rem_step (ex_state, ex_session) 1).2.drbs = [] := by
  have h := C6_remove_unmaps_before_erase ex_state ex_session 1
  refine ⟨h.2.2.1, ?_⟩
  rw [h.2.2.2 (by decide)]
  decide

/-! ### Duplicate-DRB setup (C9) -/

theorem mfind_mupdate_none {α : Type} (m : List (Nat × α)) (key : Nat) (f : α → α)
    (h : mfind m key = none) : mfind (mupdate m key f) key = none := by
  induction m with
  | nil => rfl
  | cons p rest ih =>
    obtain ⟨k0, w⟩ := p
    by_cases hk : k0 = key
    · simp only [mfind, if_pos hk] at h
      cases h
    · simp only [mfind, if_neg hk] at h
      simp only [mupdate, if_neg hk, mfind, if_neg hk]
      exact ih h

/-- The QoS-flow loop only rewires QoS flows inside DRB contexts: the
construction generation numbers of every DRB context (object identity,
PDCP entity, F1-U bearer) are untouched. -/
theorem qos_fold_preserves_ctx (did pg : Nat) (flows : List e1ap_qos_flow_qos_param_item) :
    ∀ (sess : pdu_session) (acc : List qos_flow_setup_result) (k : Nat),
      (mfind (flows.foldl (qos_flow_setup_step did pg) (sess, acc)).1.drbs k).map
          (fun d => (d.ctx_gen, d.pdcp_gen, d.f1u_gen)) =
        (mfind sess.drbs k).map (fun d => (d.ctx_gen, d.pdcp_gen, d.f1u_gen)) := by
  induction flows with
  | nil => intro sess acc k; rfl
  | cons qf rest ih =>
    intro sess acc k
    rw [List.foldl_cons]
    rcases hs : qos_flow_setup_step did pg (sess, acc) qf with ⟨s1, a1⟩
    rw [ih s1 a1 k]
    have hdrbs : s1.drbs = mupdate sess.drbs did (qos_flow_attach qf pg) := by
      have he : (qos_flow_setup_step did pg (sess, acc) qf).1.drbs =
          mupdate sess.drbs did (qos_flow_attach qf pg) := rfl
      rw [hs] at he
      exact he
    rw [hdrbs]
    by_cases hk : k = did
    · subst hk
      cases hm : mfind sess.drbs k with
      | none => rw [mfind_mupdate_none _ _ _ hm]
      | some d =>
        rw [mfind_mupdate_self _ _ _ _ hm]
        simp [qos_flow_attach]
    · rw [mfind_mupdate_other _ _ _ _ hk]

/-- For a DRB id already present in the session, `handle_drb_to_setup_item`
keeps the existing context object (the `std::map::emplace` no-op) and
replaces the PDCP entity and the F1-U bearer wired into it with freshly
created ones. -/
theorem handle_drb_ctx_on_duplicate (st : manager_state) (sess : pdu_session)
    (item : e1ap_drb_to_setup_item_ng_ran) (ctx : drb_context)
    (h : mfind sess.drbs item.drb_id = some ctx) :
    (mfind (handle_drb_to_setup_item st sess item).2.1.drbs item.drb_id).map
        (fun d => (d.ctx_gen, d.pdcp_gen, d.f1u_gen)) =
      some (ctx.ctx_gen, some (st.next_gen + 1), some (st.next_gen + 2)) := by
  unfold handle_drb_to_setup_item
  simp only []
  rw [qos_fold_preserves_ctx]
  simp only []
  rw [memplace_of_isSome _ _ _ (by rw [h]; rfl)]
  have h1 := mfind_mupdate_self sess.drbs item.drb_id
    (fun d => { d with pdcp_gen := some (st.next_gen + 1) }) ctx h
  have h2 := mfind_mupdate_self
    (mupdate sess.drbs item.drb_id (fun d => { d with pdcp_gen := some (st.next_gen + 1) }))
    item.drb_id
    (fun d => { d with f1u_gen := some (st.next_gen + 2), f1u_ul_teid := some (allocate_local_f1u_teid st.ue_index sess.pdu_session_id item.drb_id) })
    _ h1
  rw [h2]
  rfl

/-- C9: `handle_drb_to_setup_item` performs no duplicate-DRB-id check —
called with a DRB id already present in the session, the map emplace
keeps the pre-existing DRB context object (same construction generation),
yet that context's PDCP entity and F1-U bearer are replaced by newly
created ones wired into it, and the per-DRB result is still a success. -/
theorem C9_duplicate_drb_setup (st : manager_state) (sess : pdu_session)
    (item : e1ap_drb_to_setup_item_ng_ran) (ctx : drb_context)
    (h : mfind sess.drbs item.drb_id = some ctx)
    (hp : ∀ g, ctx.pdcp_gen = some g → g < st.next_gen)
    (hf : ∀ g, ctx.f1u_gen = some g → g < st.next_gen) :
    ∃ ctx', mfind (handle_drb_to_setup_item st sess item).2.1.drbs item.drb_id = some ctx' ∧
      ctx'.ctx_gen = ctx.ctx_gen ∧
      ctx'.pdcp_gen = some (st.next_gen + 1) ∧ ctx'.pdcp_gen ≠ ctx.pdcp_gen ∧
      ctx'.f1u_gen = some (st.next_gen + 2) ∧ ctx'.f1u_gen ≠ ctx.f1u_gen ∧
      (handle_drb_to_setup_item st sess item).2.2.success = true := by
  have hm := handle_drb_ctx_on_duplicate st sess item ctx h
  cases hfind : mfind (handle_drb_to_setup_item st sess item).2.1.drbs item.drb_id with
  | none => rw [hfind] at hm; cases hm
  | some ctx' =>
    rw [hfind] at hm
    rw [Option.map_some', Option.some.injEq] at hm
    have hctx : ctx'.ctx_gen = ctx.ctx_gen := by
      have := congrArg Prod.fst hm
      simpa using this
    have hpd : ctx'.pdcp_gen = some (st.next_gen + 1) := by
      have := congrArg (fun p => p.2.1) hm
      simpa using this
    have hfu : ctx'.f1u_gen = some (st.next_gen + 2) := by
      have := congrArg (fun p => p.2.2) hm
      simpa using this
    refine ⟨ctx', rfl, hctx, hpd, ?_, hfu, ?_, ?_⟩
    · rw [hpd]
      cases hc : ctx.pdcp_gen with
      | none => intro hcc; cases hcc
      | some g =>
        intro hcc
        injection hcc with hcc2
        have := hp g hc
        omega
    · rw [hfu]
      cases hc : ctx.f1u_gen with
      | none => intro hcc; cases hcc
      | some g =>
        intro hcc
        injection hcc with hcc2
        have := hf g hc
        omega
    · rw [(handle_drb_to_setup_item_result st sess item).1]
      rfl

/-- Witness instantiating `C9_duplicate_drb_setup` on `ex_state` and
`ex_session`, which already holds DRB 1 (context generation 2, PDCP
entity 3, F1-U bearer 4): re-running the setup item for DRB 1 keeps the
context object but rewires it to PDCP entity 6 and F1-U bearer 7. -/
theorem C9_duplicate_drb_setup_witness :
    ∃ ctx', mfind (handle_drb_to_setup_item ex_state ex_session
        { drb_id := 1, qos_flow_info_to_be_setup := [] }).2.1.drbs 1 = some ctx' ∧
      ctx'.ctx_gen = ex_drb.ctx_gen ∧
      ctx'.pdcp_gen = some 6 ∧ ctx'.pdcp_gen ≠ ex_drb.pdcp_gen ∧
      ctx'.f1u_gen = some 7 ∧ ctx'.f1u_gen ≠ ex_drb.f1u_gen ∧
      (handle_drb_to_setup_item ex_state ex_session
        { drb_id := 1, qos_flow_info_to_be_setup := [] }).2.2.success = true := by
  have h := C9_duplicate_drb_setup ex_state ex_session
    { drb_id := 1, qos_flow_info_to_be_setup := [] } ex_drb (by decide)
    (by intro g hg; simp [ex_drb] at hg; simp [ex_state]; omega)
    (by intro g hg; simp [ex_drb] at hg; simp [ex_state]; omega)
  exact h

/-! ### E1AP CU-UP message handlers (`e1ap_cu_up_impl.cpp`)

The handlers mutate the UE context list and the event manager's pending
transactions and emit outbound messages through the PDU notifier; the
embedding returns the new state together with the list of messages sent
and, for release, the list of commands forwarded to the CU-UP notifier. -/

/-- A UE context entry of the E1AP UE context list (`e1ap_ue_context`
ids). -/
structure e1ap_ue_context where
  ue_index : Nat
  cu_cp_ue_e1ap_id : Nat
  cu_up_ue_e1ap_id : Nat
  deriving DecidableEq, Repr

/-- The outbound E1AP messages the CU-UP implementation builds
(successful outcomes, unsuccessful outcomes and the unsolicited
notification). -/
inductive e1ap_out_msg where
  | bearer_context_setup_response (cu_cp_id cu_up_id : Nat)
  | bearer_context_setup_failure (cu_cp_id : Nat)
  | bearer_context_mod_response (cu_cp_id cu_up_id : Nat)
  | bearer_context_mod_failure (cu_cp_id cu_up_id : Nat)
  | bearer_context_release_complete (cu_cp_id cu_up_id : Nat)
  | bearer_context_inactivity_notif (cu_cp_id cu_up_id : Nat)
  deriving DecidableEq, Repr

/-- The mutable state of `e1ap_cu_up_impl` observed by the handlers: the
UE context list keyed by the CU-UP-side E1AP id, the event manager's
pending transaction ids, the record of resumed transactions, whether the
E1 connection is up, and the logger call counts. -/
structure e1ap_state where
  ue_ctxt_list : List (Nat × e1ap_ue_context)
  pending_transactions : List Nat
  resumed_transactions : List Nat
  connection_up : Bool
  log_error_count : Nat
  log_warning_count : Nat
  deriving DecidableEq, Repr

/-- A decoded BearerContextReleaseCommand (the fields the handler
reads). -/
structure e1ap_bearer_context_release_cmd where
  gnb_cu_up_ue_e1ap_id : Nat
  gnb_cu_cp_ue_e1ap_id : Nat
  cause : cause_t
  deriving DecidableEq, Repr

/-- Embedding of `e1ap_cu_up_impl::handle_bearer_context_release_command`:
with no UE context for the received CU-UP-side id, the command is logged
as an error and dropped — nothing is sent and nothing is forwarded;
otherwise the release cause is forwarded to the CU-UP notifier for
teardown, the UE context is removed, and exactly one
BearerContextReleaseComplete echoing the command's ids is sent. -/
def handle_bearer_context_release_command (st : e1ap_state)
    (msg : e1ap_bearer_context_release_cmd) :
    e1ap_state × List e1ap_out_msg × List (Nat × cause_t) :=
  match mfind st.ue_ctxt_list msg.gnb_cu_up_ue_e1ap_id with
  | none => ({ st with log_error_count := st.log_error_count + 1 }, [], [])
  | some ctxt =>
    let forwarded := [(ctxt.ue_index, msg.cause)]
    let st := { st with
      ue_ctxt_list := st.ue_ctxt_list.filter (fun p => p.2.ue_index ≠ ctxt.ue_index) }
    (st, [e1ap_out_msg.bearer_context_release_complete msg.gnb_cu_cp_ue_e1ap_id
            msg.gnb_cu_up_ue_e1ap_id], forwarded)

/-- Modelled from the spec: an inbound successful or unsuccessful outcome
represented by the result of the transaction-id extraction
`get_transaction_id(outcome)`, whose ASN.1 helper is not part of this
excerpt; `none` stands for an outcome type the extraction does not
support. -/
structure e1ap_outcome_msg where
  transaction_id : Option Nat
  deriving DecidableEq, Repr

/-- Modelled from the spec: the event manager's
`transactions.set_response(id, outcome)`, whose implementation is not
part of this excerpt; it resolves the pending transaction with that id —
resuming the suspended procedure — and reports `false` when no such
pending transaction exists. -/
def set_response (pending : List Nat) (tid : Nat) : Bool × List Nat :=
  if tid ∈ pending then (true, pending.erase tid) else (false, pending)

/-- Embedding of `e1ap_cu_up_impl::handle_successful_outcome`: failed
transaction-id extraction logs an error and drops the outcome; an
extracted id is handed to the event manager, and an unmatched id logs a
warning and is otherwise ignored; no message is ever sent and the
connection is never torn down. -/
def handle_successful_outcome (st : e1ap_state) (outcome : e1ap_outcome_msg) :
    e1ap_state × List e1ap_out_msg :=
  match outcome.transaction_id with
  | none => ({ st with log_error_count := st.log_error_count + 1 }, [])
  | some tid =>
    let r := set_response st.pending_transactions tid
    if r.1 then
      ({ st with pending_transactions := r.2,
                 resumed_transactions := st.resumed_transactions ++ [tid] }, [])
    else
      ({ st with log_warning_count := st.log_warning_count + 1 }, [])

/-- Embedding of `e1ap_cu_up_impl::handle_unsuccessful_outcome`: the same
behaviour as `handle_successful_outcome` (the source bodies differ only
in the text of the error log line). -/
def handle_unsuccessful_outcome (st : e1ap_state) (outcome : e1ap_outcome_msg) :
    e1ap_state × List e1ap_out_msg :=
  match outcome.transaction_id with
  | none => ({ st with log_error_count := st.log_error_count + 1 }, [])
  | some tid =>
    let r := set_response st.pending_transactions tid
    if r.1 then
      ({ st with pending_transactions := r.2,
                 resumed_transactions := st.resumed_transactions ++ [tid] }, [])
    else
      ({ st with log_warning_count := st.log_warning_count + 1 }, [])

/-- C5 (amended): a release command whose CU-UP-side id has a matching UE
context forwards the release cause to the CU-UP notifier, removes the UE
context, and emits exactly one BearerContextReleaseComplete (a successful
outcome); a command with no matching UE context logs an error and emits
nothing at all; in every case at most one message is emitted, every
emitted message is a release-complete, no failure outcome is ever emitted
for release, and the connection stays up. -/
theorem C5_release_contract (st : e1ap_state)
    (msg : e1ap_bearer_context_release_cmd) :
    (mfind st.ue_ctxt_list msg.gnb_cu_up_ue_e1ap_id = none →
      handle_bearer_context_release_command st msg =
        ({ st with log_error_count := st.log_error_count + 1 }, [], [])) ∧
    (∀ ctxt, mfind st.ue_ctxt_list msg.gnb_cu_up_ue_e1ap_id = some ctxt →
      handle_bearer_context_release_command st msg =
        ({ st with ue_ctxt_list :=
             st.ue_ctxt_list.filter (fun p => p.2.ue_index ≠ ctxt.ue_index) },
         [e1ap_out_msg.bearer_context_release_complete msg.gnb_cu_cp_ue_e1ap_id
            msg.gnb_cu_up_ue_e1ap_id],
         [(ctxt.ue_index, msg.cause)])) ∧
    (∀ m ∈ (handle_bearer_context_release_command st msg).2.1,
      m = e1ap_out_msg.bearer_context_release_complete msg.gnb_cu_cp_ue_e1ap_id
            msg.gnb_cu_up_ue_e1ap_id) ∧
    (handle_bearer_context_release_command st msg).2.1.length ≤ 1 ∧
    (handle_bearer_context_release_command st msg).1.connection_up =
      st.connection_up := by
  have hnone : mfind st.ue_ctxt_list msg.gnb_cu_up_ue_e1ap_id = none →
      handle_bearer_context_release_command st msg =
        ({ st with log_error_count := st.log_error_count + 1 }, [], []) := by
    intro h
    unfold handle_bearer_context_release_command
    rw [h]
  have hsome : ∀ ctxt, mfind st.ue_ctxt_list msg.gnb_cu_up_ue_e1ap_id = some ctxt →
      handle_bearer_context_release_command st msg =
        ({ st with ue_ctxt_list :=
             st.ue_ctxt_list.filter (fun p => p.2.ue_index ≠ ctxt.ue_index) },
         [e1ap_out_msg.bearer_context_release_complete msg.gnb_cu_cp_ue_e1ap_id
            msg.gnb_cu_up_ue_e1ap_id],
         [(ctxt.ue_index, msg.cause)]) := by
    intro ctxt h
    unfold handle_bearer_context_release_command
    rw [h]
  refine ⟨hnone, hsome, ?_, ?_, ?_⟩
  · intro m hm
    cases hc : mfind st.ue_ctxt_list msg.gnb_cu_up_ue_e1ap_id with
    | none => rw [hnone hc] at hm; cases hm
    | some ctxt =>
      rw [hsome ctxt hc] at hm
      simpa using hm
  · cases hc : mfind st.ue_ctxt_list msg.gnb_cu_up_ue_e1ap_id with
    | none => rw [hnone hc]; simp
    | some ctxt => rw [hsome ctxt hc]; simp
  · cases hc : mfind st.ue_ctxt_list msg.gnb_cu_up_ue_e1ap_id with
    | none => rw [hnone hc]
    | some ctxt => rw [hsome ctxt hc]

/-- Counterexample to C5 as stated: a release command for CU-UP-side id 5
arriving when the UE context list is empty emits no
BearerContextReleaseComplete at all (and forwards nothing), so the
handler does not always emit exactly one completion message. -/
theorem C5_counterexample :
    ¬ ((handle_bearer_context_release_command
        { ue_ctxt_list := [], pending_transactions := [],
          resumed_transactions := [], connection_up := true,
          log_error_count := 0, log_warning_count := 0 }
        { gnb_cu_up_ue_e1ap_id := 5, gnb_cu_cp_ue_e1ap_id := 9,
          cause := cause_t.radio_network }).2.1.length = 1) ∧
    (handle_bearer_context_release_command
        { ue_ctxt_list := [], pending_transactions := [],
          resumed_transactions := [], connection_up := true,
          log_error_count := 0, log_warning_count := 0 }
        { gnb_cu_up_ue_e1ap_id := 5, gnb_cu_cp_ue_e1ap_id := 9,
          cause := cause_t.radio_network }).2.2 = [] := by
  exact ⟨by decide, by decide⟩

/-- Concrete E1AP state used by the witnesses: one UE context (UE index 3)
under CU-UP-side id 5, one pending transaction 7. -/
def ex_e1ap_state : e1ap_state :=
  { ue_ctxt_list := [(5, { ue_index := 3, cu_cp_ue_e1ap_id := 9, cu_up_ue_e1ap_id := 5 })],
    pending_transactions := [7], resumed_transactions := [],
    connection_up := true, log_error_count := 0, log_warning_count := 0 }

/-- Witness instantiating `C5_release_contract` on `ex_e1ap_state`: the
release command for the existing UE context forwards its cause, removes
the context and emits exactly one release-complete. -/
theorem C5_release_contract_witness :
    handle_bearer_context_release_command ex_e1ap_state
        { gnb_cu_up_ue_e1ap_id := 5, gnb_cu_cp_ue_e1ap_id := 9,
          cause := cause_t.radio_network } =
      ({ ex_e1ap_state with ue_ctxt_list := [] },
       [e1ap_out_msg.bearer_context_release_complete 9 5],
       [(3, cause_t.radio_network)]) := by
  have h := (C5_release_contract ex_e1ap_state
    { gnb_cu_up_ue_e1ap_id := 5, gnb_cu_cp_ue_e1ap_id := 9,
      cause := cause_t.radio_network }).2.1
    { ue_index := 3, cu_cp_ue_e1ap_id := 9, cu_up_ue_e1ap_id := 5 } (by decide)
  rw [h]
  decide

/-- C8: for both outcome handlers, a failed transaction-id extraction
logs an error and drops the outcome, and an extracted id matching no
pending transaction logs a warning and is otherwise ignored — in neither
case is any message sent, any transaction resumed, the pending set
changed, or the connection torn down (the whole state is unchanged except
the one log counter). -/
theorem C8_outcome_contract (st : e1ap_state) (outcome : e1ap_outcome_msg) :
    (outcome.transaction_id = none →
      handle_successful_outcome st outcome =
        ({ st with log_error_count := st.log_error_count + 1 }, []) ∧
      handle_unsuccessful_outcome st outcome =
        ({ st with log_error_count := st.log_error_count + 1 }, [])) ∧
    (∀ tid, outcome.transaction_id = some tid →
      tid ∉ st.pending_transactions →
      handle_successful_outcome st outcome =
        ({ st with log_warning_count := st.log_warning_count + 1 }, []) ∧
      handle_unsuccessful_outcome st outcome =
        ({ st with log_warning_count := st.log_warning_count + 1 }, [])) := by
  constructor
  · intro h
    constructor
    · unfold handle_successful_outcome
      rw [h]
    · unfold handle_unsuccessful_outcome
      rw [h]
  · intro tid h hmem
    have hr : set_response st.pending_transactions tid = (false, st.pending_transactions) := by
      unfold set_response
      rw [if_neg hmem]
    constructor
    · unfold handle_successful_outcome
      rw [h]
      simp [hr]
    · unfold handle_unsuccessful_outcome
      rw [h]
      simp [hr]

/-- Witness instantiating `C8_outcome_contract` on `ex_e1ap_state`: an
outcome whose extraction failed only bumps the error log, and an outcome
with the never-issued transaction id 8 only bumps the warning log, for
both handlers. -/
theorem C8_outcome_contract_witness :
    handle_successful_outcome ex_e1ap_state { transaction_id := none } =
      ({ ex_e1ap_state with log_error_count := 1 }, []) ∧
    handle_unsuccessful_outcome ex_e1ap_state { transaction_id := some 8 } =
      ({ ex_e1ap_state with log_warning_count := 1 }, []) := by
  have h1 := (C8_outcome_contract ex_e1ap_state { transaction_id := none }).1 rfl
  have h2 := (C8_outcome_contract ex_e1ap_state { transaction_id := some 8 }).2
    8 rfl (by decide)
  exact ⟨h1.1, h2.2⟩

/-! ### SDR RU expert-execution YAML serialization
(`ru_sdr_config_yaml_writer.cpp`, `fill_ru_sdr_expert_execution_section`)

The per-cell loop body assigns YAML keys in a fixed order; the embedding
records the sequence of key assignments, so that overwriting (assigning
the same key twice) is observable: the emitted YAML value of a key is the
last assignment to it. -/

/-- The YAML keys the cell-affinity loop can write (the RU-specific keys
are included so that their absence is expressible). -/
inductive yaml_key where
  | l1_dl_cpus
  | l1_dl_pinning
  | l1_ul_cpus
  | l1_ul_pinning
  | ru_cpus
  | ru_pinning
  deriving DecidableEq, Repr

/-- A YAML value written by the loop: a formatted CPU-id list or a
pinning-policy string, represented by the data they are formatted from. -/
inductive yaml_val where
  | cpus (ids : List Nat)
  | pinning (policy : Nat)
  deriving DecidableEq, Repr

/-- One CPU-affinity configuration (`os_sched_affinity_config`): the CPU
ids of the bitmask (`mask.any()` is non-emptiness, `mask.get_cpu_ids()`
the list) and the pinning policy. -/
structure os_sched_affinity_config where
  mask_cpu_ids : List Nat
  pinning_policy : Nat
  deriving DecidableEq, Repr

/-- One cell entry of `expert_execution.cell_affinities`
(`ru_sdr_unit_cpu_affinities_cell_config`): the downlink L1, uplink L1
and RU CPU configurations. -/
structure cell_affinities_config where
  l1_dl_cpu_cfg : os_sched_affinity_config
  l1_ul_cpu_cfg : os_sched_affinity_config
  ru_cpu_cfg : os_sched_affinity_config
  deriving DecidableEq, Repr

/-- Embedding of the per-cell body of
`fill_ru_sdr_expert_execution_section` (the loop over
`cell_affinities_node`): the ordered sequence of YAML key assignments the
source performs — `l1_dl_cpus` from the downlink config when its mask is
non-empty, `l1_dl_pinning` from the downlink config, `l1_ul_cpus` /
`l1_ul_pinning` from the uplink config, then `l1_dl_cpus` again from the
RU config when its mask is non-empty and `l1_dl_pinning` again from the
RU config. -/
def fill_cell_affinity_assignments (e : cell_affinities_config) :
    List (yaml_key × yaml_val) :=
  (if e.l1_dl_cpu_cfg.mask_cpu_ids ≠ [] then
    [(yaml_key.l1_dl_cpus, yaml_val.cpus e.l1_dl_cpu_cfg.mask_cpu_ids)] else [])
  ++ [(yaml_key.l1_dl_pinning, yaml_val.pinning e.l1_dl_cpu_cfg.pinning_policy)]
  ++ (if e.l1_ul_cpu_cfg.mask_cpu_ids ≠ [] then
    [(yaml_key.l1_ul_cpus, yaml_val.cpus e.l1_ul_cpu_cfg.mask_cpu_ids)] else [])
  ++ [(yaml_key.l1_ul_pinning, yaml_val.pinning e.l1_ul_cpu_cfg.pinning_policy)]
  ++ (if e.ru_cpu_cfg.mask_cpu_ids ≠ [] then
    [(yaml_key.l1_dl_cpus, yaml_val.cpus e.ru_cpu_cfg.mask_cpu_ids)] else [])
  ++ [(yaml_key.l1_dl_pinning, yaml_val.pinning e.ru_cpu_cfg.pinning_policy)]

/-- Number of assignments the loop body makes to a key. -/
def assignment_count (as : List (yaml_key × yaml_val)) (k : yaml_key) : Nat :=
  (as.filter (fun p => p.1 = k)).length

/-- The value a key holds in the emitted YAML node: its last assignment. -/
def final_value (as : List (yaml_key × yaml_val)) (k : yaml_key) : Option yaml_val :=
  ((as.filter (fun p => p.1 = k)).getLast?).map Prod.snd

/-- C10 (amended): in the per-cell serialization, `l1_dl_pinning` is
always assigned twice — from the downlink config and then from the RU
config — so its emitted value is always the RU pinning policy;
`l1_dl_cpus` is assigned from the downlink config only when the downlink
mask is non-empty and reassigned from the RU config only when the RU mask
is non-empty (so it is assigned twice exactly when both masks are
non-empty, downlink first), and whenever the RU mask is non-empty its
emitted value is the RU mask; and no RU-specific key is ever emitted. -/
theorem C10_ru_overwrites_l1_dl (e : cell_affinities_config) :
    assignment_count (fill_cell_affinity_assignments e) yaml_key.l1_dl_pinning = 2 ∧
    final_value (fill_cell_affinity_assignments e) yaml_key.l1_dl_pinning =
      some (yaml_val.pinning e.ru_cpu_cfg.pinning_policy) ∧
    (e.ru_cpu_cfg.mask_cpu_ids ≠ [] →
      final_value (fill_cell_affinity_assignments e) yaml_key.l1_dl_cpus =
        some (yaml_val.cpus e.ru_cpu_cfg.mask_cpu_ids)) ∧
    (e.l1_dl_cpu_cfg.mask_cpu_ids ≠ [] → e.ru_cpu_cfg.mask_cpu_ids ≠ [] →
      (fill_cell_affinity_assignments e).filter
          (fun p => p.1 = yaml_key.l1_dl_cpus) =
        [(yaml_key.l1_dl_cpus, yaml_val.cpus e.l1_dl_cpu_cfg.mask_cpu_ids),
         (yaml_key.l1_dl_cpus, yaml_val.cpus e.ru_cpu_cfg.mask_cpu_ids)]) ∧
    assignment_count (fill_cell_affinity_assignments e) yaml_key.ru_cpus = 0 ∧
    assignment_count (fill_cell_affinity_assignments e) yaml_key.ru_pinning = 0 := by
  by_cases hdl : e.l1_dl_cpu_cfg.mask_cpu_ids = [] <;>
    by_cases hul : e.l1_ul_cpu_cfg.mask_cpu_ids = [] <;>
      by_cases hru : e.ru_cpu_cfg.mask_cpu_ids = [] <;>
        simp [fill_cell_affinity_assignments, assignment_count, final_value,
          hdl, hul, hru]

/-- Concrete cell-affinity entry with all three masks non-empty, used by
the C10 witness. -/
def ex_cell_affinity : cell_affinities_config :=
  { l1_dl_cpu_cfg := { mask_cpu_ids := [0, 1], pinning_policy := 1 },
    l1_ul_cpu_cfg := { mask_cpu_ids := [2, 3], pinning_policy := 1 },
    ru_cpu_cfg := { mask_cpu_ids := [4], pinning_policy := 2 } }

/-- Witness instantiating `C10_ru_overwrites_l1_dl` on `ex_cell_affinity`:
with both downlink and RU masks non-empty, `l1_dl_cpus` is assigned first
from the downlink mask and then from the RU mask, and the emitted value
is the RU mask. -/
theorem C10_ru_overwrites_l1_dl_witness :
    final_value (fill_cell_affinity_assignments ex_cell_affinity) yaml_key.l1_dl_cpus =
      some (yaml_val.cpus [4]) ∧
    (fill_cell_affinity_assignments ex_cell_affinity).filter
        (fun p => p.1 = yaml_key.l1_dl_cpus) =
      [(yaml_key.l1_dl_cpus, yaml_val.cpus [0, 1]),
       (yaml_key.l1_dl_cpus, yaml_val.cpus [4])] := by
  have h := C10_ru_overwrites_l1_dl ex_cell_affinity
  exact ⟨h.2.2.1 (by decide), h.2.2.2.1 (by decide) (by decide)⟩

/-- Counterexample to C10 as stated: for a cell-affinity entry whose
downlink and RU CPU masks are both empty, the key `l1_dl_cpus` is never
assigned at all — not twice — so the claim that both keys are assigned
twice for every entry fails. -/
theorem C10_counterexample :
    assignment_count (fill_cell_affinity_assignments
      { l1_dl_cpu_cfg := { mask_cpu_ids := [], pinning_policy := 0 },
        l1_ul_cpu_cfg := { mask_cpu_ids := [], pinning_policy := 0 },
        ru_cpu_cfg := { mask_cpu_ids := [], pinning_policy := 0 } })
      yaml_key.l1_dl_cpus ≠ 2 := by
  decide

end SrsranCuUp
